import Mathlib

/-!
Shallow embedding of the VAD state-machine classifier from
`examples/ten_vad_state_machine.h` (struct `vad_state_machine`,
`change_state`, `vad_state_machine_create`, `vad_state_machine_process`,
`vad_state_machine_get_current_state`,
`vad_state_machine_get_current_state_duration`, `vad_state_machine_reset`).

Modelling conventions:
- C `int` fields are modelled as `Int` (the counters only ever take the
  values the C code assigns them, starting from 0 or -1).
- C `float` quantities (`frame_duration_ms`, `min_speech_duration_ms`,
  `max_pause_duration_ms`, `probability`) are modelled as `ℚ`; the
  arithmetic the claims exercise is exact in binary32, so the rational
  model agrees with the C computation on those inputs.
- The transition-notification callback is modelled by an explicit event
  list: each `(old_state, new_state)` pair in the list stands for one
  synchronous invocation of the registered callback during the call.
- A nullable handle is modelled as `Option VadStateMachine`; `none` is
  the NULL pointer.
-/

/-- The five classifier states of `vad_state_t`. -/
inductive VadState where
  | silence
  | speechStart
  | speechContinue
  | speechPause
  | speechEnd
deriving DecidableEq, Repr

/-- `vad_state_config_t`. -/
structure VadStateConfig where
  speech_start_frames : Int
  speech_end_frames : Int
  pause_frames : Int
  pause_resume_frames : Int
  min_speech_duration_ms : ℚ
  max_pause_duration_ms : ℚ
deriving DecidableEq, Repr

/-- The internal `struct vad_state_machine` (callback and user_data are
represented by the event list returned by the operations, not stored). -/
structure VadStateMachine where
  config : VadStateConfig
  hop_size : Nat
  sample_rate : Int
  frame_duration_ms : ℚ
  current_state : VadState
  previous_state : VadState
  speech_frame_count : Int
  silence_frame_count : Int
  total_frame_count : Int
  current_state_frames : Int
  speech_start_frame : Int
  last_speech_frame : Int
deriving DecidableEq, Repr

/-- One recorded callback invocation: `(old_state, new_state)`. -/
abbrev VadEvent := VadState × VadState

/-- `default_config` from the source. -/
def default_config : VadStateConfig :=
  { speech_start_frames := 3
    speech_end_frames := 10
    pause_frames := 5
    pause_resume_frames := 2
    min_speech_duration_ms := 200
    max_pause_duration_ms := 1000 }

/-- `change_state`: if the new state differs, record the old state in
`previous_state`, install the new state, zero `current_state_frames`, and
invoke the callback once with `(old_state, new_state)`; otherwise leave the
machine untouched and invoke nothing. -/
def change_state (sm : VadStateMachine) (new_state : VadState) :
    VadStateMachine × List VadEvent :=
  if sm.current_state ≠ new_state then
    ({ sm with
        previous_state := sm.current_state
        current_state := new_state
        current_state_frames := 0 },
      [(sm.current_state, new_state)])
  else
    (sm, [])

/-- `vad_state_machine_create` on a non-NULL result: installs the given
configuration (or `default_config` when NULL is passed), computes
`frame_duration_ms = hop_size * 1000 / sample_rate`, and zero-initialises
the runtime state. -/
def vad_state_machine_create (config : Option VadStateConfig)
    (hop_size : Nat) (sample_rate : Int) : VadStateMachine :=
  { config := config.getD default_config
    hop_size := hop_size
    sample_rate := sample_rate
    frame_duration_ms := (hop_size : ℚ) * 1000 / (sample_rate : ℚ)
    current_state := .silence
    previous_state := .silence
    speech_frame_count := 0
    silence_frame_count := 0
    total_frame_count := 0
    current_state_frames := 0
    speech_start_frame := -1
    last_speech_frame := -1 }

/-- `vad_state_machine_process` on a non-NULL handle: increments
`total_frame_count` and `current_state_frames`, updates the run counters
from `vad_flag`, then runs the `switch` on `current_state`.  Returns the
updated machine and the callback invocations made during the call; the C
return value is `current_state` of the returned machine. -/
def vad_state_machine_process (sm : VadStateMachine) (vad_flag : Bool)
    (probability : ℚ) : VadStateMachine × List VadEvent :=
  let sm := { sm with
      total_frame_count := sm.total_frame_count + 1
      current_state_frames := sm.current_state_frames + 1 }
  let sm :=
    if vad_flag then
      { sm with
          speech_frame_count := sm.speech_frame_count + 1
          silence_frame_count := 0
          last_speech_frame := sm.total_frame_count }
    else
      { sm with
          silence_frame_count := sm.silence_frame_count + 1
          speech_frame_count := 0 }
  match sm.current_state with
  | .silence =>
      if sm.speech_frame_count ≥ sm.config.speech_start_frames then
        change_state
          { sm with speech_start_frame :=
              sm.total_frame_count - sm.speech_frame_count + 1 }
          .speechStart
      else
        (sm, [])
  | .speechStart =>
      if vad_flag then
        change_state sm .speechContinue
      else if sm.silence_frame_count ≥ sm.config.speech_end_frames then
        if (sm.current_state_frames : ℚ) * sm.frame_duration_ms <
            sm.config.min_speech_duration_ms then
          change_state sm .silence
        else
          change_state sm .speechEnd
      else
        (sm, [])
  | .speechContinue =>
      if sm.silence_frame_count ≥ sm.config.pause_frames then
        change_state sm .speechPause
      else
        (sm, [])
  | .speechPause =>
      if sm.speech_frame_count ≥ sm.config.pause_resume_frames then
        change_state sm .speechContinue
      else if (sm.silence_frame_count : ℚ) * sm.frame_duration_ms ≥
          sm.config.max_pause_duration_ms then
        change_state sm .speechEnd
      else
        (sm, [])
  | .speechEnd =>
      if sm.speech_frame_count ≥ sm.config.speech_start_frames then
        change_state
          { sm with speech_start_frame :=
              sm.total_frame_count - sm.speech_frame_count + 1 }
          .speechStart
      else
        change_state sm .silence

/-- `vad_state_machine_process` on a nullable handle: on NULL it returns
`VAD_STATE_SILENCE` without touching anything; otherwise it processes the
frame and returns the resulting `current_state` together with the updated
handle. -/
def vad_state_machine_process_h (h : Option VadStateMachine)
    (vad_flag : Bool) (probability : ℚ) : VadState × Option VadStateMachine :=
  match h with
  | none => (.silence, none)
  | some sm =>
      let r := vad_state_machine_process sm vad_flag probability
      (r.1.current_state, some r.1)

/-- `vad_state_machine_get_current_state` on a nullable handle. -/
def vad_state_machine_get_current_state (h : Option VadStateMachine) :
    VadState :=
  match h with
  | none => .silence
  | some sm => sm.current_state

/-- `vad_state_machine_get_current_state_duration` on a nullable handle. -/
def vad_state_machine_get_current_state_duration
    (h : Option VadStateMachine) : ℚ :=
  match h with
  | none => 0
  | some sm => (sm.current_state_frames : ℚ) * sm.frame_duration_ms

/-- `vad_state_machine_reset`: restores the runtime state to the initial
values in place, leaves configuration and derived constants untouched, and
invokes no callback. -/
def vad_state_machine_reset (sm : VadStateMachine) :
    VadStateMachine × List VadEvent :=
  ({ sm with
      current_state := .silence
      previous_state := .silence
      speech_frame_count := 0
      silence_frame_count := 0
      total_frame_count := 0
      current_state_frames := 0
      speech_start_frame := -1
      last_speech_frame := -1 },
    [])

/-- Feed a list of `(vad_flag, probability)` frames through
`vad_state_machine_process`, discarding the events. -/
def processFrames (sm : VadStateMachine) (frames : List (Bool × ℚ)) :
    VadStateMachine :=
  frames.foldl (fun m f => (vad_state_machine_process m f.1 f.2).1) sm

/-- The spec's nine-row transition table, evaluated top to bottom on the
already-updated run counters (`speech_run`, `silence_run`), the voiced flag
of this frame, and the already-incremented `elapsed` value of
`current_state_frames`; any `(state, condition)` combination not listed
leaves the state unchanged. -/
def spec_transition (st : VadState) (vad_flag : Bool)
    (speech_run silence_run elapsed : Int) (fd : ℚ)
    (cfg : VadStateConfig) : VadState :=
  match st with
  | .silence =>
      if speech_run ≥ cfg.speech_start_frames then .speechStart else st
  | .speechStart =>
      if vad_flag then .speechContinue
      else if silence_run ≥ cfg.speech_end_frames ∧
          (elapsed : ℚ) * fd < cfg.min_speech_duration_ms then .silence
      else if silence_run ≥ cfg.speech_end_frames ∧
          (elapsed : ℚ) * fd ≥ cfg.min_speech_duration_ms then .speechEnd
      else st
  | .speechContinue =>
      if silence_run ≥ cfg.pause_frames then .speechPause else st
  | .speechPause =>
      if speech_run ≥ cfg.pause_resume_frames then .speechContinue
      else if (silence_run : ℚ) * fd ≥ cfg.max_pause_duration_ms then
        .speechEnd
      else st
  | .speechEnd =>
      if speech_run ≥ cfg.speech_start_frames then .speechStart else .silence

/-- C1: one `vad_state_machine_process` call first updates the run
counters (voiced: `speech_frame_count` increments, `silence_frame_count`
zeroes; silent: the reverse) and then moves `current_state` exactly as the
nine-row transition table dictates, evaluated on the updated counters and
the incremented `current_state_frames`; on every no-op combination the
state is unchanged and `current_state_frames` keeps incrementing. -/
theorem process_matches_transition_table (sm : VadStateMachine)
    (vad_flag : Bool) (probability : ℚ) :
    ((vad_state_machine_process sm vad_flag probability).1.speech_frame_count =
        if vad_flag then sm.speech_frame_count + 1 else 0) ∧
    ((vad_state_machine_process sm vad_flag probability).1.silence_frame_count =
        if vad_flag then 0 else sm.silence_frame_count + 1) ∧
    ((vad_state_machine_process sm vad_flag probability).1.current_state =
      spec_transition sm.current_state vad_flag
        (if vad_flag then sm.speech_frame_count + 1 else 0)
        (if vad_flag then 0 else sm.silence_frame_count + 1)
        (sm.current_state_frames + 1) sm.frame_duration_ms sm.config) ∧
    ((vad_state_machine_process sm vad_flag probability).1.current_state =
        sm.current_state →
      (vad_state_machine_process sm vad_flag probability).1.current_state_frames =
        sm.current_state_frames + 1) := by
  unfold vad_state_machine_process change_state spec_transition
  rcases sm with ⟨cfg, hop, rate, fd, cs, ps, spc, sic, tfc, csf, ssf, lsf⟩
  cases vad_flag <;> cases cs <;>
    simp only [Bool.false_eq_true, if_true, if_false, ite_true, ite_false,
      Bool.true_eq_false, not_false_eq_true, not_true_eq_false] <;>
    split_ifs <;>
    simp_all [not_lt] <;>
    first
      | omega
      | tauto
      | linarith

/-- Witness for C1 at concrete inputs discharging its hypothesis: a fresh
default-configured machine stays in SILENCE on one silent frame, and its
`current_state_frames` has incremented to 1. -/
theorem process_matches_transition_table_witness :
    ((vad_state_machine_process (vad_state_machine_create none 256 16000)
        false 0).1.current_state =
      (vad_state_machine_create none 256 16000).current_state) ∧
    ((vad_state_machine_process (vad_state_machine_create none 256 16000)
        false 0).1.current_state_frames = 1) :=
  ⟨by decide,
    (process_matches_transition_table (vad_state_machine_create none 256 16000)
      false 0).2.2.2 (by decide)⟩

/-- C5: `vad_state_machine_get_current_state` on a NULL handle returns
`VAD_STATE_SILENCE` and `vad_state_machine_get_current_state_duration` on a
NULL handle returns 0, rather than signaling an error. -/
theorem null_handle_accessors_return_defaults :
    vad_state_machine_get_current_state none = VadState.silence ∧
    vad_state_machine_get_current_state_duration none = 0 := by
  exact ⟨rfl, rfl⟩

/-- C6: after every `vad_state_machine_process` call, a voiced frame has
incremented `speech_frame_count` and zeroed `silence_frame_count`, a silent
frame the reverse, so the two run counters are never simultaneously
non-zero. -/
theorem run_counters_exclusive (sm : VadStateMachine) (vad_flag : Bool)
    (probability : ℚ) :
    ((vad_state_machine_process sm vad_flag probability).1.speech_frame_count =
        if vad_flag then sm.speech_frame_count + 1 else 0) ∧
    ((vad_state_machine_process sm vad_flag probability).1.silence_frame_count =
        if vad_flag then 0 else sm.silence_frame_count + 1) ∧
    ((vad_state_machine_process sm vad_flag probability).1.speech_frame_count = 0 ∨
      (vad_state_machine_process sm vad_flag probability).1.silence_frame_count = 0) := by
  unfold vad_state_machine_process change_state
  rcases sm with ⟨cfg, hop, rate, fd, cs, ps, spc, sic, tfc, csf, ssf, lsf⟩
  cases vad_flag <;> cases cs <;>
    simp only [Bool.false_eq_true, if_true, if_false] <;>
    split <;> (try split) <;> (try split) <;> simp

/-- The configuration of the short-burst rejection scenario:
`speech_start_frames=3, speech_end_frames=5, min_speech_duration_ms=200`
(remaining fields at their defaults). -/
def shortBurstConfig : VadStateConfig :=
  { speech_start_frames := 3
    speech_end_frames := 5
    pause_frames := 5
    pause_resume_frames := 2
    min_speech_duration_ms := 200
    max_pause_duration_ms := 1000 }

/-- A freshly constructed classifier for the short-burst scenario:
hop 256 at 16000 Hz gives `frame_duration_ms = 16`. -/
def shortBurstMachine : VadStateMachine :=
  vad_state_machine_create (some shortBurstConfig) 256 16000

/-- Intermediate machines of the short-burst scenario: the static fields
are those of `shortBurstMachine`, the runtime fields are the arguments. -/
def sbm (cs ps : VadState) (spc sic tfc csf ssfr lsf : Int) :
    VadStateMachine :=
  ⟨shortBurstConfig, 256, 16000, 16, cs, ps, spc, sic, tfc, csf, ssfr, lsf⟩

/-- C2: with `speech_start_frames=3, speech_end_frames=5,
min_speech_duration_ms=200, frame_duration_ms=16`, a fresh classifier fed
exactly 3 voiced frames then 5 silent frames ends in SILENCE (the episode
is rejected as too short), not SPEECH_END. -/
theorem short_burst_rejected_to_silence :
    shortBurstMachine.frame_duration_ms = 16 ∧
    (processFrames shortBurstMachine
        [(true, 1), (true, 1), (true, 1), (false, 0), (false, 0), (false, 0),
          (false, 0), (false, 0)]).current_state = VadState.silence := by
  have hm0 : shortBurstMachine = sbm .silence .silence 0 0 0 0 (-1) (-1) := by
    norm_num [shortBurstMachine, sbm, vad_state_machine_create,
      VadStateMachine.mk.injEq]
  have h1 : (vad_state_machine_process (sbm .silence .silence 0 0 0 0 (-1) (-1))
      true 1).1 = sbm .silence .silence 1 0 1 1 (-1) 1 := by
    norm_num [sbm, vad_state_machine_process, change_state, shortBurstConfig,
      VadStateMachine.mk.injEq]
  have h2 : (vad_state_machine_process (sbm .silence .silence 1 0 1 1 (-1) 1)
      true 1).1 = sbm .silence .silence 2 0 2 2 (-1) 2 := by
    norm_num [sbm, vad_state_machine_process, change_state, shortBurstConfig,
      VadStateMachine.mk.injEq]
  have h3 : (vad_state_machine_process (sbm .silence .silence 2 0 2 2 (-1) 2)
      true 1).1 = sbm .speechStart .silence 3 0 3 0 1 3 := by
    norm_num [sbm, vad_state_machine_process, change_state, shortBurstConfig,
      VadStateMachine.mk.injEq]
    rfl
  have h4 : (vad_state_machine_process (sbm .speechStart .silence 3 0 3 0 1 3)
      false 0).1 = sbm .speechStart .silence 0 1 4 1 1 3 := by
    norm_num [sbm, vad_state_machine_process, change_state, shortBurstConfig,
      VadStateMachine.mk.injEq]
  have h5 : (vad_state_machine_process (sbm .speechStart .silence 0 1 4 1 1 3)
      false 0).1 = sbm .speechStart .silence 0 2 5 2 1 3 := by
    norm_num [sbm, vad_state_machine_process, change_state, shortBurstConfig,
      VadStateMachine.mk.injEq]
  have h6 : (vad_state_machine_process (sbm .speechStart .silence 0 2 5 2 1 3)
      false 0).1 = sbm .speechStart .silence 0 3 6 3 1 3 := by
    norm_num [sbm, vad_state_machine_process, change_state, shortBurstConfig,
      VadStateMachine.mk.injEq]
  have h7 : (vad_state_machine_process (sbm .speechStart .silence 0 3 6 3 1 3)
      false 0).1 = sbm .speechStart .silence 0 4 7 4 1 3 := by
    norm_num [sbm, vad_state_machine_process, change_state, shortBurstConfig,
      VadStateMachine.mk.injEq]
  have h8 : (vad_state_machine_process (sbm .speechStart .silence 0 4 7 4 1 3)
      false 0).1 = sbm .silence .speechStart 0 5 8 0 1 3 := by
    norm_num [sbm, vad_state_machine_process, change_state, shortBurstConfig,
      VadStateMachine.mk.injEq]
    rfl
  refine ⟨by norm_num [shortBurstMachine, vad_state_machine_create], ?_⟩
  simp only [processFrames, List.foldl_cons, List.foldl_nil, hm0, h1, h2, h3,
    h4, h5, h6, h7, h8]
  rfl

/-- The default-configured fresh classifier after two voiced frames
(one more voiced frame triggers the SILENCE → SPEECH_START transition). -/
def twoVoicedMachine : VadStateMachine :=
  processFrames (vad_state_machine_create none 256 16000)
    [(true, 1), (true, 1)]

/-- C3 counterexample: on the third voiced frame a transition fires
(SILENCE → SPEECH_START), yet `current_state_frames` is 0 afterwards, not
1 as the claim's inclusive counting demands. -/
theorem state_frames_not_inclusive_after_transition :
    (vad_state_machine_process twoVoicedMachine true 1).1.current_state ≠
      twoVoicedMachine.current_state ∧
    (vad_state_machine_process twoVoicedMachine true 1).1.current_state_frames =
      0 := by
  constructor
  · decide
  · decide

/-- C3 amended: after every `vad_state_machine_process` call,
`current_state_frames` counts the calls since the last transition
EXCLUDING the call that caused entry: it increments by 1 when the state is
unchanged and is 0 immediately after a call on which a transition fired. -/
theorem state_frames_count_exclusive (sm : VadStateMachine)
    (vad_flag : Bool) (probability : ℚ) :
    (vad_state_machine_process sm vad_flag probability).1.current_state_frames =
      if (vad_state_machine_process sm vad_flag probability).1.current_state =
          sm.current_state
      then sm.current_state_frames + 1 else 0 := by
  unfold vad_state_machine_process change_state
  rcases sm with ⟨cfg, hop, rate, fd, cs, ps, spc, sic, tfc, csf, ssf, lsf⟩
  cases vad_flag <;> cases cs <;>
    simp only [Bool.false_eq_true, if_true, if_false, ite_true, ite_false,
      Bool.true_eq_false, not_false_eq_true, not_true_eq_false] <;>
    split_ifs <;>
    simp_all

/-- C4 counterexample: calling `vad_state_machine_process` with a NULL
handle does not fail: it silently returns the default state
`VAD_STATE_SILENCE` and leaves the (absent) handle untouched. -/
theorem null_process_returns_default :
    vad_state_machine_process_h none true (1 / 2) =
      (VadState.silence, none) := rfl

/-- C4 amended: calling `vad_state_machine_process` with a NULL handle
silently returns `VAD_STATE_SILENCE` for every flag and probability, with
no state change and no error signal, rather than failing fast. -/
theorem null_process_silently_silence (vad_flag : Bool) (probability : ℚ) :
    vad_state_machine_process_h none vad_flag probability =
      (VadState.silence, none) := rfl

/-- Helper: one `vad_state_machine_process` call never changes the
configuration, `hop_size`, `sample_rate` or `frame_duration_ms`. -/
theorem process_static_fields (sm : VadStateMachine) (vad_flag : Bool)
    (probability : ℚ) :
    (vad_state_machine_process sm vad_flag probability).1.config = sm.config ∧
    (vad_state_machine_process sm vad_flag probability).1.hop_size = sm.hop_size ∧
    (vad_state_machine_process sm vad_flag probability).1.sample_rate = sm.sample_rate ∧
    (vad_state_machine_process sm vad_flag probability).1.frame_duration_ms =
      sm.frame_duration_ms := by
  unfold vad_state_machine_process change_state
  rcases sm with ⟨cfg, hop, rate, fd, cs, ps, spc, sic, tfc, csf, ssf, lsf⟩
  cases vad_flag <;> cases cs <;>
    simp only [Bool.false_eq_true, if_true, if_false, ite_true, ite_false,
      Bool.true_eq_false, not_false_eq_true, not_true_eq_false] <;>
    split_ifs <;>
    simp

/-- Helper: processing any list of frames preserves the configuration,
`hop_size`, `sample_rate` and `frame_duration_ms`. -/
theorem processFrames_static_fields (sm : VadStateMachine)
    (frames : List (Bool × ℚ)) :
    (processFrames sm frames).config = sm.config ∧
    (processFrames sm frames).hop_size = sm.hop_size ∧
    (processFrames sm frames).sample_rate = sm.sample_rate ∧
    (processFrames sm frames).frame_duration_ms = sm.frame_duration_ms := by
  induction frames generalizing sm with
  | nil => exact ⟨rfl, rfl, rfl, rfl⟩
  | cons f fs ih =>
      have h := process_static_fields sm f.1 f.2
      have h2 := ih (vad_state_machine_process sm f.1 f.2).1
      simp only [processFrames, List.foldl_cons] at h2 ⊢
      exact ⟨h2.1.trans h.1, h2.2.1.trans h.2.1, h2.2.2.1.trans h.2.2.1,
        h2.2.2.2.trans h.2.2.2⟩

/-- C7: after any sequence of processed frames, `vad_state_machine_reset`
returns the classifier to exactly the state of a freshly constructed
instance with the same arguments (runtime fields reinitialised,
configuration and derived constants untouched) and invokes no callback;
with the empty sequence this says reset on a fresh classifier is a no-op. -/
theorem reset_restores_fresh_state (config : Option VadStateConfig)
    (hop_size : Nat) (sample_rate : Int) (frames : List (Bool × ℚ)) :
    vad_state_machine_reset
        (processFrames (vad_state_machine_create config hop_size sample_rate)
          frames) =
      (vad_state_machine_create config hop_size sample_rate, []) := by
  obtain ⟨h1, h2, h3, h4⟩ :=
    processFrames_static_fields
      (vad_state_machine_create config hop_size sample_rate) frames
  rcases hm : processFrames (vad_state_machine_create config hop_size sample_rate)
      frames with ⟨cfg', hop', rate', fd', cs', ps', a', b', c', d', e', f'⟩
  rw [hm] at h1 h2 h3 h4
  simp only [vad_state_machine_create] at h1 h2 h3 h4 ⊢
  simp [vad_state_machine_reset, h1, h2, h3, h4]

/-- A classifier sitting in SPEECH_END (default configuration otherwise
fresh), used to witness C9. -/
def endStateMachine : VadStateMachine :=
  { vad_state_machine_create none 256 16000 with
      current_state := VadState.speechEnd }

/-- C9: from SPEECH_END, the very next `vad_state_machine_process` call
moves to SPEECH_START when the updated `speech_frame_count` reaches
`speech_start_frames` and otherwise immediately to SILENCE; SPEECH_END
never persists across a call. -/
theorem speech_end_transient (sm : VadStateMachine) (vad_flag : Bool)
    (probability : ℚ) (h : sm.current_state = VadState.speechEnd) :
    ((vad_state_machine_process sm vad_flag probability).1.current_state =
      if (if vad_flag then sm.speech_frame_count + 1 else 0) ≥
          sm.config.speech_start_frames
      then VadState.speechStart else VadState.silence) ∧
    (vad_state_machine_process sm vad_flag probability).1.current_state ≠
      VadState.speechEnd := by
  unfold vad_state_machine_process change_state
  rcases sm with ⟨cfg, hop, rate, fd, cs, ps, spc, sic, tfc, csf, ssf, lsf⟩
  simp only at h
  subst h
  cases vad_flag <;>
    simp only [Bool.false_eq_true, if_true, if_false, ite_true, ite_false,
      Bool.true_eq_false, not_false_eq_true, not_true_eq_false] <;>
    split_ifs <;>
    simp_all

/-- Witness for C9: the concrete SPEECH_END classifier, fed one silent
frame, leaves SPEECH_END (it decays to SILENCE). -/
theorem speech_end_transient_witness :
    endStateMachine.current_state = VadState.speechEnd ∧
    (vad_state_machine_process endStateMachine false 0).1.current_state ≠
      VadState.speechEnd :=
  ⟨rfl, (speech_end_transient endStateMachine false 0 rfl).2⟩

/-- C10: during one `vad_state_machine_process` call either no callback is
invoked, or exactly one is, with old state the state held before the call,
old ≠ new, and `previous_state` set to that pre-call state. -/
theorem at_most_one_transition_per_call (sm : VadStateMachine)
    (vad_flag : Bool) (probability : ℚ) :
    (vad_state_machine_process sm vad_flag probability).2 = [] ∨
    ((vad_state_machine_process sm vad_flag probability).2 =
        [(sm.current_state,
          (vad_state_machine_process sm vad_flag probability).1.current_state)] ∧
      sm.current_state ≠
        (vad_state_machine_process sm vad_flag probability).1.current_state ∧
      (vad_state_machine_process sm vad_flag probability).1.previous_state =
        sm.current_state) := by
  unfold vad_state_machine_process change_state
  rcases sm with ⟨cfg, hop, rate, fd, cs, ps, spc, sic, tfc, csf, ssf, lsf⟩
  cases vad_flag <;> cases cs <;>
    simp only [Bool.false_eq_true, if_true, if_false, ite_true, ite_false,
      Bool.true_eq_false, not_false_eq_true, not_true_eq_false] <;>
    split_ifs <;>
    simp

/-- C8: the `probability` argument has no influence on
`vad_state_machine_process`: two calls differing only in probability give
the same updated machine and the same events (hence the same returned
state). -/
theorem probability_noninterference (sm : VadStateMachine) (vad_flag : Bool)
    (p q : ℚ) :
    vad_state_machine_process sm vad_flag p =
      vad_state_machine_process sm vad_flag q := by
  rfl
